import Mathlib

/-!
Shallow embedding of the Gem Miner simulation core from
`src/games/gem-miner/GemMiner.tsx` (the exported `GemMiner` component).
JavaScript numbers are modelled with `ℤ` (all quantities the game keeps are
integers) and `ℚ` for the intermediate real-valued formulas; `Math.round` on
the nonnegative values that occur here is `⌊q + 1/2⌋` and `Math.floor` is
`Int.floor`.  The mutable refs of the component become fields of one state
record, and every handler becomes a pure state transformer.
-/

namespace GemMiner

/-- JS `Math.round` for the nonnegative quantities used by the game. -/
def jsRound (q : ℚ) : ℤ := ⌊q + 1/2⌋

/-- Source `clamp(value, min, max)` from the source. -/
def clamp (value lo hi : ℤ) : ℤ := max lo (min hi value)

/-- Source `TileType` from `types.ts` / `GemMiner.tsx`. -/
inductive Tile
  | empty | dirt | rock | stone | aegis | voidbed
  | coal | copper | silver | gold | ruby | platinum | diamond
  | iridium | aurelite | cryostone | helionite | voidCrystal
deriving DecidableEq, Repr

/-- Source `UpgradeId`. -/
inductive UpgradeId
  | cargo | drill | fuel | treads
deriving DecidableEq, Repr

/-- Source `DepotId`. -/
inductive DepotId
  | sell | fuel | upgrade
deriving DecidableEq, Repr

/-- Source `DrillAim`. -/
inductive DrillAim
  | forward | down
deriving DecidableEq, Repr

/-- One entry of the cargo manifest. -/
structure CargoEntry where
  count : ℤ
  value : ℤ
deriving DecidableEq, Repr

/-- Source `CARGO_TYPES`: the twelve sellable ore kinds, in source order. -/
def cargoTypes : List Tile :=
  [.coal, .copper, .silver, .gold, .ruby, .platinum, .diamond,
   .iridium, .aurelite, .cryostone, .helionite, .voidCrystal]

/-- Source `isSellableCargoTile`. -/
def isSellableCargoTile (t : Tile) : Bool := cargoTypes.contains t

/-- Source `TILE_DEFS[t].value`. -/
def tileValue : Tile → ℤ
  | .coal => 14 | .copper => 24 | .silver => 42 | .gold => 74
  | .ruby => 130 | .platinum => 190 | .diamond => 260 | .iridium => 360
  | .aurelite => 520 | .cryostone => 740 | .helionite => 1050
  | .voidCrystal => 1500
  | _ => 0

/-- Source `TILE_DEFS[t].hardness` (exact decimals as rationals). -/
def tileHardness : Tile → ℚ
  | .dirt => 1 | .rock => 22/10 | .stone => 32/10 | .aegis => 49/10
  | .voidbed => 66/10 | .coal => 16/10 | .copper => 25/10 | .silver => 3
  | .gold => 38/10 | .ruby => 46/10 | .platinum => 52/10 | .diamond => 59/10
  | .iridium => 64/10 | .aurelite => 7 | .cryostone => 76/10
  | .helionite => 82/10 | .voidCrystal => 92/10
  | .empty => 0

/-- Source `TILE_DEFS[t].label` (empty tiles have no definition). -/
def tileLabel : Tile → String
  | .dirt => "Dirt" | .rock => "Rock" | .stone => "Stone"
  | .aegis => "Aegis Strata" | .voidbed => "Voidbed"
  | .coal => "Coal" | .copper => "Copper" | .silver => "Silver"
  | .gold => "Gold" | .ruby => "Ruby" | .platinum => "Platinum"
  | .diamond => "Diamond" | .iridium => "Iridium" | .aurelite => "Aurelite"
  | .cryostone => "Cryostone" | .helionite => "Helionite"
  | .voidCrystal => "Void Crystal"
  | .empty => ""

def WORLD_WIDTH : ℤ := 22
def WORLD_HEIGHT : ℤ := 420
def MAX_UPGRADE_LEVEL : ℤ := 11
def DEPOT_INTERACT_DISTANCE : ℤ := 1
def ROCK_EFFICIENT_DRILL_TIER : ℤ := 3
def STONE_REQUIRED_DRILL_TIER : ℤ := 6
def AEGIS_REQUIRED_DRILL_TIER : ℤ := 9
def VOIDBED_REQUIRED_DRILL_TIER : ℤ := 12
def FUEL_UNIT_COST : ℤ := 2

/-- Source `UPGRADE_TIER_NAMES`. -/
def UPGRADE_TIER_NAMES : List String :=
  ["Basic", "Copper", "Silver", "Gold", "Ruby", "Platinum", "Diamond",
   "Iridium", "Aurelite", "Cryostone", "Helionite", "Void Crystal"]

/-- Source `DEPOTS` (id and x position; labels inlined where needed). -/
def depotX : DepotId → ℤ
  | .sell => 4 | .fuel => 11 | .upgrade => 18

def depotLabel : DepotId → String
  | .sell => "SELL" | .fuel => "FUEL" | .upgrade => "RIG"

def getCargoCapacity (level : ℤ) : ℤ := 12 + level * 7
def getDrillPower (level : ℤ) : ℚ := 1 + (level : ℚ) * (6/10)
def getDrillTier (level : ℤ) : ℤ := level + 1
def getFuelCapacity (level : ℤ) : ℤ := 90 + level * 30
def getMoveDelayMs (level : ℤ) : ℤ := max 78 (210 - level * 22)

def getTierName (level : ℤ) : String :=
  UPGRADE_TIER_NAMES.getD (clamp level 0 MAX_UPGRADE_LEVEL).toNat ""

def getTierLabel (level : ℤ) : String :=
  "T" ++ toString (getDrillTier level) ++ " " ++ getTierName level

/-- Source `getUpgradeCost` (exponential cost curves, `Math.round`ed). -/
def getUpgradeCost (id : UpgradeId) (level : ℤ) : ℤ :=
  match id with
  | .cargo => jsRound (70 * (14/10 : ℚ) ^ level.toNat)
  | .drill => jsRound (85 * (145/100 : ℚ) ^ level.toNat)
  | .fuel => jsRound (80 * (142/100 : ℚ) ^ level.toNat)
  | .treads => jsRound (95 * (3/2 : ℚ) ^ level.toNat)

/-- The world grid, indexed `world y x` like `worldRef.current[y][x]`.
Generation is randomized in the source (`createWorld`/`pickTileByDepth`), so
a shaft is an arbitrary grid function supplied where the code rolls one. -/
def World := ℤ → ℤ → Tile

def updateWorld (w : World) (y x : ℤ) (t : Tile) : World :=
  fun y' x' => if y' = y ∧ x' = x then t else w y' x'

/-- Source `createEmptyCargoManifest`. -/
def createEmptyCargoManifest : Tile → CargoEntry := fun _ => ⟨0, 0⟩

/-- Source `PersistedProgress` as read back from storage, before sanitization
(arbitrary JS numbers, hence rationals). -/
structure RawProgress where
  money : ℚ
  totalEarned : ℚ
  cargoLevel : ℚ
  drillLevel : ℚ
  fuelLevel : ℚ
  treadsLevel : ℚ

/-- A sanitized snapshot (integral fields). -/
structure Progress where
  money : ℤ
  totalEarned : ℤ
  cargoLevel : ℤ
  drillLevel : ℤ
  fuelLevel : ℤ
  treadsLevel : ℤ
deriving DecidableEq, Repr

/-- Source `sanitizeProgress`. -/
def sanitizeProgress (p : RawProgress) : Progress where
  money := max 0 ⌊p.money⌋
  totalEarned := max 0 ⌊p.totalEarned⌋
  cargoLevel := clamp ⌊p.cargoLevel⌋ 0 MAX_UPGRADE_LEVEL
  drillLevel := clamp ⌊p.drillLevel⌋ 0 MAX_UPGRADE_LEVEL
  fuelLevel := clamp ⌊p.fuelLevel⌋ 0 MAX_UPGRADE_LEVEL
  treadsLevel := clamp ⌊p.treadsLevel⌋ 0 MAX_UPGRADE_LEVEL

/-- Source `getNearbyDepotIdForPosition`. -/
def getNearbyDepotIdForPosition (x y : ℤ) : Option DepotId :=
  if y ≠ 0 then none
  else if |x - depotX .sell| ≤ DEPOT_INTERACT_DISTANCE then some .sell
  else if |x - depotX .fuel| ≤ DEPOT_INTERACT_DISTANCE then some .fuel
  else if |x - depotX .upgrade| ≤ DEPOT_INTERACT_DISTANCE then some .upgrade
  else none

/-- The session state: one field per mutable ref of the component that the
simulation reads or writes (rendering-only refs are omitted). -/
structure GMState where
  world : World
  robotX : ℤ
  robotY : ℤ
  drillAim : DrillAim
  facing : ℤ
  money : ℤ
  cargoValue : ℤ
  cargoUsed : ℤ
  manifest : Tile → CargoEntry
  fuel : ℤ
  totalEarned : ℤ
  cargoLevel : ℤ
  drillLevel : ℤ
  fuelLevel : ℤ
  treadsLevel : ℤ
  status : String
  stranded : Bool
  paused : Bool
  depotPanel : Option DepotId

/-- Sum of `manifest[t].count` over the twelve sellable ore types. -/
def sumCounts (m : Tile → CargoEntry) : ℤ :=
  (cargoTypes.map fun t => (m t).count).sum

/-- Sum of `manifest[t].value` over the twelve sellable ore types. -/
def sumValues (m : Tile → CargoEntry) : ℤ :=
  (cargoTypes.map fun t => (m t).value).sum

/-- Source `applyProgressSnapshot`. -/
def applyProgressSnapshot (p : Progress) (s : GMState) : GMState :=
  { s with money := p.money, totalEarned := p.totalEarned,
           cargoLevel := p.cargoLevel, drillLevel := p.drillLevel,
           fuelLevel := p.fuelLevel, treadsLevel := p.treadsLevel }

/-- Source `handleSurfaceDock`. -/
def handleSurfaceDock (s : GMState) : GMState :=
  if s.robotY ≠ 0 then s else { s with stranded := false }

/-- Source `sellCargo`. -/
def sellCargo (s : GMState) : GMState :=
  if s.depotPanel ≠ some .sell then
    { s with status := "Open the SELL depot to sell cargo." }
  else if s.cargoValue ≤ 0 then
    { s with status := "No sellable cargo right now." }
  else
    { s with money := s.money + s.cargoValue,
             totalEarned := s.totalEarned + s.cargoValue,
             cargoValue := 0, cargoUsed := 0,
             manifest := createEmptyCargoManifest,
             status := "Sold cargo for $" ++ toString s.cargoValue ++ "." }

/-- Source `refuelAtDepot(requestedUnits?)`.  A missing argument is `none`; a
requested unit count is an arbitrary JS number, hence `ℚ`. -/
def refuelAtDepot (requestedUnits : Option ℚ) (s : GMState) : GMState :=
  if s.depotPanel ≠ some .fuel then
    { s with status := "Open the FUEL depot to refuel." }
  else
    let fuelCapacity := getFuelCapacity s.fuelLevel
    let missingFuel := max 0 (fuelCapacity - s.fuel)
    if missingFuel ≤ 0 then { s with status := "Tank already full." }
    else
      let affordableUnits := Int.fdiv s.money FUEL_UNIT_COST
      let maxPurchasableUnits := min missingFuel affordableUnits
      if maxPurchasableUnits ≤ 0 then
        { s with status := "Refuel costs $2 per unit." }
      else
        let unitsBought :=
          match requestedUnits with
          | some r => clamp ⌊r⌋ 1 maxPurchasableUnits
          | none => maxPurchasableUnits
        let fuelCost := unitsBought * FUEL_UNIT_COST
        { s with money := s.money - fuelCost,
                 fuel := s.fuel + unitsBought,
                 stranded := false,
                 status :=
                   if unitsBought = missingFuel then
                     "Tank topped off for $" ++ toString fuelCost ++ "."
                   else
                     "Bought " ++ toString unitsBought ++ " fuel for $" ++
                       toString fuelCost ++ "." }

/-- Source `startNewShaft(keepProgress, statusOverride?)`; the freshly rolled world
is passed in (the source calls the unseeded `createWorld()` here). -/
def startNewShaft (keepProgress : Bool) (w : World) (statusOverride : Option String)
    (s : GMState) : GMState :=
  let s1 := { s with world := w, robotX := 11, robotY := 0,
                     drillAim := DrillAim.forward, facing := 1,
                     cargoValue := 0, cargoUsed := 0,
                     manifest := createEmptyCargoManifest,
                     stranded := false, paused := false, depotPanel := none }
  let s2 :=
    if !keepProgress then
      { s1 with money := 0, totalEarned := 0, cargoLevel := 0, drillLevel := 0,
                fuelLevel := 0, treadsLevel := 0,
                status := statusOverride.getD "Mars operation online. Dig smart." }
    else
      { s1 with status :=
          statusOverride.getD "Fresh Martian shaft generated. Progress kept." }
  { s2 with fuel := getFuelCapacity s2.fuelLevel }

/-- Source `openDepot`. -/
def openDepot (depot : DepotId) (s : GMState) : GMState :=
  if s.robotY ≠ 0 then
    { s with status := "Depots are only available on the surface." }
  else if DEPOT_INTERACT_DISTANCE < |s.robotX - depotX depot| then
    { s with status := "Move closer to the " ++ depotLabel depot ++ " depot." }
  else
    { s with depotPanel := some depot,
             status :=
               match depot with
               | .sell => "Sell depot open."
               | .fuel => "Fuel depot open."
               | .upgrade => "Upgrade depot open." }

/-- Source `closeDepot`. -/
def closeDepot (s : GMState) : GMState :=
  if s.depotPanel = none then s
  else { s with depotPanel := none, status := "Depot closed." }

/-- Source `triggerDepotAction`. -/
def triggerDepotAction (s : GMState) : GMState :=
  if s.depotPanel ≠ none then closeDepot s
  else
    match getNearbyDepotIdForPosition s.robotX s.robotY with
    | none =>
      { s with status := "Move next to a surface depot and press Space." }
    | some nearby => openDepot nearby s

/-- Source `setStrandedIfNeeded`. -/
def setStrandedIfNeeded (s : GMState) : GMState :=
  if s.fuel ≤ 0 ∧ 0 < s.robotY then
    { s with fuel := 0, stranded := true, depotPanel := none,
             status := "Out of fuel underground. Trigger emergency tow." }
  else s

/-- Source `spendFuel`. -/
def spendFuel (amount : ℤ) (s : GMState) : GMState :=
  setStrandedIfNeeded { s with fuel := max 0 (s.fuel - amount) }

/-- The drill-aim update at the top of `attemptStep`. -/
def aimUpdate (dx dy : ℤ) (s : GMState) : GMState :=
  if 0 < dy then { s with drillAim := DrillAim.down }
  else if dx ≠ 0 ∨ dy < 0 then { s with drillAim := DrillAim.forward }
  else s

/-- The facing update in `attemptStep`. -/
def facingUpdate (dx : ℤ) (s : GMState) : GMState :=
  if dx < 0 then { s with facing := -1 }
  else if 0 < dx then { s with facing := 1 }
  else s

/-- The empty-target branch of `attemptStep`.  NOTE: the source assigns
`robotYRef.current = nextY` *before* testing
`!(robotYRef.current === 0 && nextY === 0)`, so the test reads the already
updated row; this is modelled verbatim. -/
def moveIntoEmpty (nextX nextY : ℤ) (s : GMState) : GMState :=
  let s1 := { s with robotX := nextX, robotY := nextY }
  let s2 := if ¬(s1.robotY = 0 ∧ nextY = 0) then spendFuel 1 s1 else s1
  handleSurfaceDock s2

/-- Source `weakRockTierGap` in `attemptStep`. -/
def weakRockTierGap (t : Tile) (drillTier : ℤ) : ℤ :=
  if t = Tile.rock then max 0 (ROCK_EFFICIENT_DRILL_TIER - drillTier) else 0

/-- Source `minedValue = Math.round(tileDef.value * (1 + nextY / 95))`. -/
def minedValueAt (t : Tile) (nextY : ℤ) : ℤ :=
  jsRound ((tileValue t : ℚ) * (1 + (nextY : ℚ) / 95))

/-- Source `fuelCost = Math.max(1, Math.round(hardness * 1.15 * fuelPenalty))`. -/
def mineFuelCost (t : Tile) (drillLevel : ℤ) : ℤ :=
  max 1 (jsRound (tileHardness t * (115/100) *
    (1 + (weakRockTierGap t (getDrillTier drillLevel) : ℚ) * (75/100))))

/-- Source `drillDelayMs` of a successful tile break. -/
def mineDelay (t : Tile) (drillLevel : ℤ) : ℤ :=
  max 65 (jsRound ((95 + tileHardness t * 185 / getDrillPower drillLevel) *
    (1 + (weakRockTierGap t (getDrillTier drillLevel) : ℚ) * (9/10))))

/-- The cargo-ledger update of a mined sellable ore (lines 1096-1101). -/
def recordMined (t : Tile) (minedValue : ℤ) (s : GMState) : GMState :=
  if isSellableCargoTile t then
    { s with cargoUsed := s.cargoUsed + 1,
             cargoValue := s.cargoValue + minedValue,
             manifest := Function.update s.manifest t
               ⟨(s.manifest t).count + 1, (s.manifest t).value + minedValue⟩ }
  else s

/-- Status string of a successful tile break. -/
def mineStatus (t : Tile) (gap : ℤ) (minedValue : ℤ) : String :=
  if isSellableCargoTile t then
    "Mined " ++ tileLabel t ++ " (+$" ++ toString minedValue ++ ")."
  else if t = Tile.voidbed then "Bored through voidbed."
  else if t = Tile.aegis then "Cut through aegis strata."
  else if t = Tile.stone then "Drilled through stone."
  else if t = Tile.rock then
    if 0 < gap then "Drilled weakly through rock (extra fuel burned)."
    else "Drilled through rock."
  else "Plowed through dirt."

/-- The standard tile-break tail of `attemptStep` (lines 1084-1130). -/
def mineTile (targetTile : Tile) (nextX nextY : ℤ) (s : GMState) :
    GMState × Option ℚ :=
  let minedValue := minedValueAt targetTile nextY
  let s1 := { s with world := updateWorld s.world nextY nextX Tile.empty,
                     robotX := nextX, robotY := nextY }
  let s2 := recordMined targetTile minedValue s1
  let s3 := spendFuel (mineFuelCost targetTile s.drillLevel) s2
  let gap := weakRockTierGap targetTile (getDrillTier s.drillLevel)
  let s4 := { s3 with status := mineStatus targetTile gap minedValue }
  (handleSurfaceDock s4, some ((mineDelay targetTile s.drillLevel : ℤ) : ℚ))

/-- Source `attemptStep(dx, dy)`: returns the next state and the cooldown
(`null` = `none`). -/
def attemptStep (dx dy : ℤ) (s : GMState) : GMState × Option ℚ :=
  if s.paused ∨ s.stranded ∨ s.depotPanel ≠ none then (s, none)
  else
    let s1 := aimUpdate dx dy s
    let nextX := s1.robotX + dx
    let nextY := s1.robotY + dy
    if nextX < 0 ∨ WORLD_WIDTH ≤ nextX ∨ nextY < 0 ∨ WORLD_HEIGHT ≤ nextY then
      (s1, none)
    else
      let targetTile := s1.world nextY nextX
      let moveDelayMs := getMoveDelayMs s1.treadsLevel
      let s2 := facingUpdate dx s1
      if s2.fuel ≤ 0 ∧ ¬(s2.robotY = 0 ∧ nextY = 0 ∧ targetTile = Tile.empty) then
        (setStrandedIfNeeded s2, none)
      else if targetTile = Tile.empty then
        (moveIntoEmpty nextX nextY s2, some ((moveDelayMs : ℤ) : ℚ))
      else if isSellableCargoTile targetTile ∧
              getCargoCapacity s2.cargoLevel ≤ s2.cargoUsed then
        ({ s2 with status := "Cargo full. Return to the surface to sell." },
         some (max 60 ((moveDelayMs : ℚ) * (5/10))))
      else if targetTile = Tile.stone ∧
              getDrillTier s2.drillLevel < STONE_REQUIRED_DRILL_TIER then
        ({ s2 with status := "Stone needs " ++
             getTierLabel (STONE_REQUIRED_DRILL_TIER - 1) ++ " drill hardware." },
         some (max 90 ((moveDelayMs : ℚ) * (7/10))))
      else if targetTile = Tile.aegis ∧
              getDrillTier s2.drillLevel < AEGIS_REQUIRED_DRILL_TIER then
        ({ s2 with status := "Aegis Strata requires " ++
             getTierLabel (AEGIS_REQUIRED_DRILL_TIER - 1) ++ " drill hardware." },
         some (max 100 ((moveDelayMs : ℚ) * (8/10))))
      else if targetTile = Tile.voidbed ∧
              getDrillTier s2.drillLevel < VOIDBED_REQUIRED_DRILL_TIER then
        ({ s2 with status := "Voidbed requires " ++
             getTierLabel (VOIDBED_REQUIRED_DRILL_TIER - 1) ++ " drill hardware." },
         some (max 112 ((moveDelayMs : ℚ) * (85/100))))
      else
        mineTile targetTile nextX nextY s2

/-- Source `emergencyTow`.  The source loops over `CARGO_TYPES` scaling each
manifest entry; this is the same pointwise update. -/
def emergencyTow (s : GMState) : GMState :=
  if !s.stranded then s
  else
    let m : Tile → CargoEntry := fun t =>
      if isSellableCargoTile t then
        ⟨⌊((s.manifest t).count : ℚ) * (6/10)⌋, ⌊((s.manifest t).value : ℚ) * (6/10)⌋⟩
      else s.manifest t
    let s1 := { s with depotPanel := none, manifest := m,
                       cargoUsed := sumCounts m, cargoValue := sumValues m,
                       robotY := 0, fuel := getFuelCapacity s.fuelLevel,
                       stranded := false,
                       status := "Emergency tow complete. Some cargo was damaged." }
    handleSurfaceDock s1

/-- The level of the track `id` (the nested conditional in
`purchaseUpgrade`). -/
def levelOf (id : UpgradeId) (s : GMState) : ℤ :=
  match id with
  | .cargo => s.cargoLevel
  | .drill => s.drillLevel
  | .fuel => s.fuelLevel
  | .treads => s.treadsLevel

/-- Source `purchaseUpgrade(id)`. -/
def purchaseUpgrade (id : UpgradeId) (s : GMState) : GMState :=
  if s.stranded then
    { s with status := "Recover your bot before buying upgrades." }
  else if s.depotPanel ≠ some .upgrade then
    { s with status := "Open the RIG depot to install upgrades." }
  else if s.robotY ≠ 0 then
    { s with status := "Dock at the surface to install upgrades." }
  else
    let level := levelOf id s
    if MAX_UPGRADE_LEVEL ≤ level then
      { s with status := "Already at max tier." }
    else
      let cost := getUpgradeCost id level
      if s.money < cost then
        { s with status := "Not enough cash for that upgrade yet." }
      else
        let s1 := { s with money := s.money - cost }
        match id with
        | .cargo =>
          { s1 with cargoLevel := s1.cargoLevel + 1,
                    status := "Cargo Rack upgraded to " ++
                      getTierLabel (s1.cargoLevel + 1) ++ "." }
        | .drill =>
          { s1 with drillLevel := s1.drillLevel + 1,
                    status := "Drill Bit upgraded to " ++
                      getTierLabel (s1.drillLevel + 1) ++ "." }
        | .fuel =>
          { s1 with fuelLevel := s1.fuelLevel + 1,
                    fuel := getFuelCapacity (s1.fuelLevel + 1),
                    status := "Fuel Tank upgraded to " ++
                      getTierLabel (s1.fuelLevel + 1) ++ " and topped off." }
        | .treads =>
          { s1 with treadsLevel := s1.treadsLevel + 1,
                    status := "Treads upgraded to " ++
                      getTierLabel (s1.treadsLevel + 1) ++ "." }

/-- Source `togglePause`. -/
def togglePause (s : GMState) : GMState :=
  { s with paused := !s.paused,
           status := if !s.paused then "Paused." else "Resumed." }

/-- The user-triggerable operations of a session (keyboard bindings and
on-screen controls).  Operations whose source rolls a fresh world
(`createWorld`) or reads persisted data take those as arguments. -/
inductive Op
  | step (dx dy : ℤ)
  | sell
  | refuel (requestedUnits : Option ℚ)
  | purchase (id : UpgradeId)
  | tow
  | openDepot (d : DepotId)
  | closeDepot
  | toggleDepot
  | togglePause
  | newShaft (w : World)
  | newProfile (w : World)
  | switchProfile (w : World) (p : RawProgress)

/-- Effect of one operation on the session state.  `newShaft` is the
"R"/new-shaft action (`startNewShaft(true)`); `newProfile` is the profile
reset (`startNewShaft(false, ...)`); `switchProfile` is the profile-change
effect: load + sanitize the target snapshot, then regenerate a shaft with
progress kept. -/
def applyOp (o : Op) (s : GMState) : GMState :=
  match o with
  | .step dx dy => (attemptStep dx dy s).1
  | .sell => sellCargo s
  | .refuel r => refuelAtDepot r s
  | .purchase id => purchaseUpgrade id s
  | .tow => emergencyTow s
  | .openDepot d => openDepot d s
  | .closeDepot => closeDepot s
  | .toggleDepot => triggerDepotAction s
  | .togglePause => togglePause s
  | .newShaft w => startNewShaft true w none s
  | .newProfile w => startNewShaft false w (some "Profile reset. Fresh account online.") s
  | .switchProfile w p =>
    startNewShaft true w (some "Loaded profile. Fresh shaft ready.")
      (applyProgressSnapshot (sanitizeProgress p) s)

def execOps (ops : List Op) (s : GMState) : GMState :=
  ops.foldl (fun acc o => applyOp o acc) s

/-- The ref initializers of the component (before the profile-load effect
runs). -/
def baseState (w : World) : GMState where
  world := w
  robotX := 11
  robotY := 0
  drillAim := DrillAim.forward
  facing := 1
  money := 0
  cargoValue := 0
  cargoUsed := 0
  manifest := createEmptyCargoManifest
  fuel := getFuelCapacity 0
  totalEarned := 0
  cargoLevel := 0
  drillLevel := 0
  fuelLevel := 0
  treadsLevel := 0
  status := "Touch down on Mars and start drilling."
  stranded := false
  paused := false
  depotPanel := none

/-- Session start: on mount the profile-load effect sanitizes and applies
the persisted snapshot, then calls `startNewShaft(true, ...)`. -/
def initState (w : World) (p : RawProgress) : GMState :=
  startNewShaft true w none (applyProgressSnapshot (sanitizeProgress p) (baseState w))

/-- The states a session can reach: a freshly mounted session, closed under
every operation. -/
inductive Reachable : GMState → Prop
  | init (w : World) (p : RawProgress) : Reachable (initState w p)
  | next (o : Op) {s : GMState} : Reachable s → Reachable (applyOp o s)

/-- The denormalized cargo totals match the manifest (spec section 8,
first invariant). -/
def CargoInv (s : GMState) : Prop :=
  s.cargoUsed = sumCounts s.manifest ∧ s.cargoValue = sumValues s.manifest

/-- Fuel, money and upgrade-level bounds (spec section 8, second
invariant). -/
def EconInv (s : GMState) : Prop :=
  0 ≤ s.fuel ∧ s.fuel ≤ getFuelCapacity s.fuelLevel ∧
  0 ≤ s.money ∧
  0 ≤ s.cargoLevel ∧ s.cargoLevel ≤ MAX_UPGRADE_LEVEL ∧
  0 ≤ s.drillLevel ∧ s.drillLevel ≤ MAX_UPGRADE_LEVEL ∧
  0 ≤ s.fuelLevel ∧ s.fuelLevel ≤ MAX_UPGRADE_LEVEL ∧
  0 ≤ s.treadsLevel ∧ s.treadsLevel ≤ MAX_UPGRADE_LEVEL

/-- Operations that keep the loaded progression (everything except a
profile reset or a profile switch). -/
def keepsProfile : Op → Bool
  | .newProfile _ => false
  | .switchProfile _ _ => false
  | _ => true

/-- A trivial persisted snapshot (fresh profile). -/
def rawZero : RawProgress := ⟨0, 0, 0, 0, 0, 0⟩

/-- Demo shaft: a single coal tile right below the spawn column. -/
def coalWorld : World := fun y x =>
  if y = 1 ∧ x = 11 then Tile.coal else Tile.empty

/-- Demo shaft: a single dirt tile right below the spawn column. -/
def dirtWorld : World := fun y x =>
  if y = 1 ∧ x = 11 then Tile.dirt else Tile.empty

/-- Demo shaft: a stone tile right below the spawn column. -/
def stoneWorld : World := fun y x =>
  if y = 1 ∧ x = 11 then Tile.stone else Tile.empty

/-- Demo shaft for the forced dirt, dirt, coal descent. -/
def descentWorld : World := fun y x =>
  if y = 0 then Tile.empty
  else if x = 11 ∧ (y = 1 ∨ y = 2) then Tile.dirt
  else if x = 11 ∧ y = 3 then Tile.coal
  else Tile.dirt

/-- The state a freshly mounted session with a blank profile reaches
(`initState w rawZero` evaluated): robot at `(11, 0)`, fuel 90, money 0. -/
def freshState (w : World) : GMState where
  world := w
  robotX := 11
  robotY := 0
  drillAim := DrillAim.forward
  facing := 1
  money := 0
  cargoValue := 0
  cargoUsed := 0
  manifest := createEmptyCargoManifest
  fuel := 90
  totalEarned := 0
  cargoLevel := 0
  drillLevel := 0
  fuelLevel := 0
  treadsLevel := 0
  status := "Fresh Martian shaft generated. Progress kept."
  stranded := false
  paused := false
  depotPanel := none

/-- The `freshState dirtWorld` after mining the dirt tile at `(11, 1)`:
one fuel spent. -/
def dugIntoDirt : GMState where
  world := updateWorld dirtWorld 1 11 Tile.empty
  robotX := 11
  robotY := 1
  drillAim := DrillAim.down
  facing := 1
  money := 0
  cargoValue := 0
  cargoUsed := 0
  manifest := createEmptyCargoManifest
  fuel := 89
  totalEarned := 0
  cargoLevel := 0
  drillLevel := 0
  fuelLevel := 0
  treadsLevel := 0
  status := mineStatus Tile.dirt 0 0
  stranded := false
  paused := false
  depotPanel := none

/-- The `dugIntoDirt` after stepping back up into the empty surface cell:
the robot reaches `(11, 0)` and, because the free-move test reads the
already-updated row, no fuel is charged. -/
def backOnSurface : GMState :=
  { dugIntoDirt with robotY := 0, drillAim := DrillAim.forward }

/-- The `freshState descentWorld` after one, two and three downward steps. -/
def descent1 : GMState :=
  { freshState descentWorld with
      world := updateWorld descentWorld 1 11 Tile.empty,
      robotY := 1, drillAim := DrillAim.down, fuel := 89,
      status := mineStatus Tile.dirt 0 0 }

def descent2 : GMState :=
  { descent1 with
      world := updateWorld (updateWorld descentWorld 1 11 Tile.empty) 2 11 Tile.empty,
      robotY := 2, fuel := 88 }

def descent3 : GMState :=
  { descent2 with
      world := updateWorld (updateWorld (updateWorld descentWorld 1 11 Tile.empty)
        2 11 Tile.empty) 3 11 Tile.empty,
      robotY := 3, fuel := 86,
      cargoUsed := 1, cargoValue := 14,
      manifest := Function.update createEmptyCargoManifest Tile.coal ⟨1, 14⟩,
      status := mineStatus Tile.coal 0 14 }

/-- Mine the coal, coast back up and left to the SELL depot, sell. -/
def earnOps : List Op :=
  [.step 0 1, .step 0 (-1), .step (-1) 0, .step (-1) 0, .step (-1) 0,
   .step (-1) 0, .step (-1) 0, .step (-1) 0, .openDepot .sell, .sell]

/-- A reachable state holding `totalEarned = 14`. -/
def earnedState : GMState := execOps earnOps (initState coalWorld rawZero)

/-- A stranded session deep in the shaft carrying five coal. -/
def strandedState : GMState :=
  { baseState coalWorld with
      stranded := true, robotY := 7, fuel := 0,
      manifest := Function.update createEmptyCargoManifest Tile.coal ⟨5, 70⟩,
      cargoUsed := 5, cargoValue := 70 }

/-- A session docked at the fuel depot with a nearly empty tank. -/
def fuelDepotState : GMState :=
  { baseState coalWorld with
      depotPanel := some DepotId.fuel, fuel := 10, money := 41 }

/-- A session at the upgrade depot one dollar short of the first drill
upgrade. -/
def upgradeDepotState : GMState :=
  { baseState coalWorld with depotPanel := some DepotId.upgrade, money := 84 }

/-- A paused session at the sell depot holding one coal worth 14. -/
def pausedSellState : GMState :=
  { baseState coalWorld with
      paused := true, depotPanel := some DepotId.sell,
      cargoValue := 14, cargoUsed := 1,
      manifest := Function.update createEmptyCargoManifest Tile.coal ⟨1, 14⟩ }

/-- A persisted snapshot carrying lifetime earnings of 14. -/
def richRaw : RawProgress := ⟨0, 14, 0, 0, 0, 0⟩

/-- A freshly mounted session whose stored profile already earned 14. -/
def richStart : GMState := initState coalWorld richRaw

/-- The drill-aim value `attemptStep` assigns before moving. -/
def aimOf (dx dy : ℤ) (a : DrillAim) : DrillAim :=
  if 0 < dy then DrillAim.down
  else if dx ≠ 0 ∨ dy < 0 then DrillAim.forward
  else a

/-- The facing value `attemptStep` assigns. -/
def facingOf (dx : ℤ) (f : ℤ) : ℤ :=
  if dx < 0 then -1 else if 0 < dx then 1 else f

lemma sumCounts_update (m : Tile → CargoEntry) (t : Tile) (e : CargoEntry)
    (ht : isSellableCargoTile t = true) :
    sumCounts (Function.update m t e) = sumCounts m - (m t).count + e.count := by
  cases t <;>
    simp_all [isSellableCargoTile, cargoTypes, sumCounts, Function.update_apply] <;>
    ring

lemma sumValues_update (m : Tile → CargoEntry) (t : Tile) (e : CargoEntry)
    (ht : isSellableCargoTile t = true) :
    sumValues (Function.update m t e) = sumValues m - (m t).value + e.value := by
  cases t <;>
    simp_all [isSellableCargoTile, cargoTypes, sumValues, Function.update_apply] <;>
    ring

lemma sumCounts_empty : sumCounts createEmptyCargoManifest = 0 := by decide

lemma sumValues_empty : sumValues createEmptyCargoManifest = 0 := by decide

lemma cargoInv_recordMined (t : Tile) (v : ℤ) (s : GMState) (h : CargoInv s) :
    CargoInv (recordMined t v s) := by
  obtain ⟨h1, h2⟩ := h
  unfold recordMined
  split
  · next hsell =>
    refine ⟨?_, ?_⟩ <;>
      simp [sumCounts_update _ _ _ hsell, sumValues_update _ _ _ hsell, h1, h2] <;>
      ring
  · exact ⟨h1, h2⟩

lemma cargoInv_handleSurfaceDock (s : GMState) (h : CargoInv s) :
    CargoInv (handleSurfaceDock s) := by
  unfold handleSurfaceDock; split <;> exact h

lemma cargoInv_setStrandedIfNeeded (s : GMState) (h : CargoInv s) :
    CargoInv (setStrandedIfNeeded s) := by
  unfold setStrandedIfNeeded; split <;> exact h

lemma cargoInv_spendFuel (a : ℤ) (s : GMState) (h : CargoInv s) :
    CargoInv (spendFuel a s) :=
  cargoInv_setStrandedIfNeeded _ h

lemma cargoInv_moveIntoEmpty (nx ny : ℤ) (s : GMState) (h : CargoInv s) :
    CargoInv (moveIntoEmpty nx ny s) := by
  unfold moveIntoEmpty
  dsimp only
  apply cargoInv_handleSurfaceDock
  split
  · exact cargoInv_spendFuel _ _ h
  · exact h

lemma cargoInv_mineTile (t : Tile) (nx ny : ℤ) (s : GMState) (h : CargoInv s) :
    CargoInv (mineTile t nx ny s).1 := by
  unfold mineTile
  dsimp only
  exact cargoInv_handleSurfaceDock _
    (cargoInv_spendFuel _ _ (cargoInv_recordMined _ _ _ h))

lemma cargoInv_aimUpdate (dx dy : ℤ) (s : GMState) (h : CargoInv s) :
    CargoInv (aimUpdate dx dy s) := by
  unfold aimUpdate; split_ifs <;> exact h

lemma cargoInv_facingUpdate (dx : ℤ) (s : GMState) (h : CargoInv s) :
    CargoInv (facingUpdate dx s) := by
  unfold facingUpdate; split_ifs <;> exact h

lemma cargoInv_attemptStep (dx dy : ℤ) (s : GMState) (h : CargoInv s) :
    CargoInv ((attemptStep dx dy s).1) := by
  have hface := cargoInv_facingUpdate dx _ (cargoInv_aimUpdate dx dy s h)
  unfold attemptStep
  dsimp only
  split
  · exact h
  · split
    · exact cargoInv_aimUpdate dx dy s h
    · split
      · exact cargoInv_setStrandedIfNeeded _ hface
      · split
        · exact cargoInv_moveIntoEmpty _ _ _ hface
        · split
          · exact hface
          · split
            · exact hface
            · split
              · exact hface
              · split
                · exact hface
                · exact cargoInv_mineTile _ _ _ _ hface

lemma cargoInv_sellCargo (s : GMState) (h : CargoInv s) :
    CargoInv (sellCargo s) := by
  unfold sellCargo
  split
  · exact h
  · split
    · exact h
    · exact ⟨sumCounts_empty.symm, sumValues_empty.symm⟩

lemma cargoInv_refuelAtDepot (r : Option ℚ) (s : GMState) (h : CargoInv s) :
    CargoInv (refuelAtDepot r s) := by
  unfold refuelAtDepot
  dsimp only
  split
  · exact h
  · split
    · exact h
    · split
      · exact h
      · exact h

lemma cargoInv_startNewShaft (k : Bool) (w : World) (so : Option String)
    (s : GMState) : CargoInv (startNewShaft k w so s) := by
  unfold startNewShaft
  dsimp only
  split <;> exact ⟨sumCounts_empty.symm, sumValues_empty.symm⟩

lemma cargoInv_emergencyTow (s : GMState) (h : CargoInv s) :
    CargoInv (emergencyTow s) := by
  unfold emergencyTow
  dsimp only
  split
  · exact h
  · exact cargoInv_handleSurfaceDock _ ⟨rfl, rfl⟩

lemma cargoInv_purchaseUpgrade (id : UpgradeId) (s : GMState) (h : CargoInv s) :
    CargoInv (purchaseUpgrade id s) := by
  unfold purchaseUpgrade
  dsimp only
  split
  · exact h
  · split
    · exact h
    · split
      · exact h
      · split
        · exact h
        · split
          · exact h
          · cases id <;> exact h

lemma cargoInv_openDepot (d : DepotId) (s : GMState) (h : CargoInv s) :
    CargoInv (openDepot d s) := by
  unfold openDepot; split_ifs <;> exact h

lemma cargoInv_closeDepot (s : GMState) (h : CargoInv s) :
    CargoInv (closeDepot s) := by
  unfold closeDepot; split <;> exact h

lemma cargoInv_triggerDepotAction (s : GMState) (h : CargoInv s) :
    CargoInv (triggerDepotAction s) := by
  unfold triggerDepotAction
  split
  · exact cargoInv_closeDepot s h
  · split
    · exact h
    · exact cargoInv_openDepot _ s h

lemma cargoInv_applyOp (o : Op) (s : GMState) (h : CargoInv s) :
    CargoInv (applyOp o s) := by
  cases o with
  | step dx dy => exact cargoInv_attemptStep dx dy s h
  | sell => exact cargoInv_sellCargo s h
  | refuel r => exact cargoInv_refuelAtDepot r s h
  | purchase id => exact cargoInv_purchaseUpgrade id s h
  | tow => exact cargoInv_emergencyTow s h
  | openDepot d => exact cargoInv_openDepot d s h
  | closeDepot => exact cargoInv_closeDepot s h
  | toggleDepot => exact cargoInv_triggerDepotAction s h
  | togglePause => exact h
  | newShaft w => exact cargoInv_startNewShaft _ _ _ _
  | newProfile w => exact cargoInv_startNewShaft _ _ _ _
  | switchProfile w p => exact cargoInv_startNewShaft _ _ _ _

lemma cargoInv_of_reachable {s : GMState} (h : Reachable s) : CargoInv s := by
  induction h with
  | init w p => exact cargoInv_startNewShaft _ _ _ _
  | next o hr ih => exact cargoInv_applyOp o _ ih

lemma econInv_handleSurfaceDock (s : GMState) (h : EconInv s) :
    EconInv (handleSurfaceDock s) := by
  unfold handleSurfaceDock; split <;> exact h

lemma econInv_setStrandedIfNeeded (s : GMState) (h : EconInv s) :
    EconInv (setStrandedIfNeeded s) := by
  unfold setStrandedIfNeeded
  split
  · unfold EconInv getFuelCapacity MAX_UPGRADE_LEVEL at h ⊢
    dsimp only
    omega
  · exact h

lemma econInv_spendFuel (a : ℤ) (ha : 0 ≤ a) (s : GMState) (h : EconInv s) :
    EconInv (spendFuel a s) := by
  unfold spendFuel
  apply econInv_setStrandedIfNeeded
  unfold EconInv getFuelCapacity MAX_UPGRADE_LEVEL at h ⊢
  dsimp only
  omega

lemma econInv_recordMined (t : Tile) (v : ℤ) (s : GMState) (h : EconInv s) :
    EconInv (recordMined t v s) := by
  unfold recordMined; split <;> exact h

lemma econInv_moveIntoEmpty (nx ny : ℤ) (s : GMState) (h : EconInv s) :
    EconInv (moveIntoEmpty nx ny s) := by
  unfold moveIntoEmpty
  dsimp only
  apply econInv_handleSurfaceDock
  split
  · exact econInv_spendFuel _ (by norm_num) _ h
  · exact h

lemma mineFuelCost_pos (t : Tile) (l : ℤ) : 0 ≤ mineFuelCost t l :=
  le_trans (by norm_num) (le_max_left 1 _)

lemma econInv_mineTile (t : Tile) (nx ny : ℤ) (s : GMState) (h : EconInv s) :
    EconInv (mineTile t nx ny s).1 := by
  unfold mineTile
  dsimp only
  exact econInv_handleSurfaceDock _
    (econInv_spendFuel _ (mineFuelCost_pos _ _) _ (econInv_recordMined _ _ _ h))

lemma econInv_aimUpdate (dx dy : ℤ) (s : GMState) (h : EconInv s) :
    EconInv (aimUpdate dx dy s) := by
  unfold aimUpdate; split_ifs <;> exact h

lemma econInv_facingUpdate (dx : ℤ) (s : GMState) (h : EconInv s) :
    EconInv (facingUpdate dx s) := by
  unfold facingUpdate; split_ifs <;> exact h

lemma econInv_attemptStep (dx dy : ℤ) (s : GMState) (h : EconInv s) :
    EconInv ((attemptStep dx dy s).1) := by
  have hface := econInv_facingUpdate dx _ (econInv_aimUpdate dx dy s h)
  unfold attemptStep
  dsimp only
  split
  · exact h
  · split
    · exact econInv_aimUpdate dx dy s h
    · split
      · exact econInv_setStrandedIfNeeded _ hface
      · split
        · exact econInv_moveIntoEmpty _ _ _ hface
        · split
          · exact hface
          · split
            · exact hface
            · split
              · exact hface
              · split
                · exact hface
                · exact econInv_mineTile _ _ _ _ hface

lemma econInv_sellCargo (s : GMState) (h : EconInv s) :
    EconInv (sellCargo s) := by
  unfold sellCargo
  split
  · exact h
  · split
    · exact h
    · next hv =>
      unfold EconInv getFuelCapacity MAX_UPGRADE_LEVEL at h ⊢
      dsimp only
      omega

lemma econInv_refuelAtDepot (r : Option ℚ) (s : GMState) (h : EconInv s) :
    EconInv (refuelAtDepot r s) := by
  unfold refuelAtDepot
  dsimp only
  split
  · exact h
  · split
    · exact h
    · split
      · exact h
      · next hmax =>
        rw [Int.fdiv_eq_ediv _ (by decide : (0:ℤ) ≤ FUEL_UNIT_COST)] at hmax ⊢
        simp only [EconInv, getFuelCapacity, MAX_UPGRADE_LEVEL, FUEL_UNIT_COST,
          clamp] at h hmax ⊢
        rcases r with _ | q
        · dsimp only; omega
        · dsimp only; omega

lemma econInv_startNewShaft (k : Bool) (w : World) (so : Option String)
    (s : GMState) (h : EconInv s) : EconInv (startNewShaft k w so s) := by
  unfold startNewShaft
  dsimp only
  split
  · unfold EconInv getFuelCapacity MAX_UPGRADE_LEVEL at h ⊢
    dsimp only
    omega
  · unfold EconInv getFuelCapacity MAX_UPGRADE_LEVEL at h ⊢
    dsimp only
    omega

lemma econInv_emergencyTow (s : GMState) (h : EconInv s) :
    EconInv (emergencyTow s) := by
  unfold emergencyTow
  dsimp only
  split
  · exact h
  · apply econInv_handleSurfaceDock
    unfold EconInv getFuelCapacity MAX_UPGRADE_LEVEL at h ⊢
    dsimp only
    omega

lemma econInv_purchaseUpgrade (id : UpgradeId) (s : GMState) (h : EconInv s) :
    EconInv (purchaseUpgrade id s) := by
  unfold purchaseUpgrade
  dsimp only
  split
  · exact h
  · split
    · exact h
    · split
      · exact h
      · split
        · exact h
        · split
          · exact h
          · next hlvl hmoney =>
            cases id <;>
              (unfold EconInv getFuelCapacity MAX_UPGRADE_LEVEL at h ⊢
               unfold levelOf MAX_UPGRADE_LEVEL at hlvl
               dsimp only at hlvl hmoney ⊢
               omega)

lemma econInv_openDepot (d : DepotId) (s : GMState) (h : EconInv s) :
    EconInv (openDepot d s) := by
  unfold openDepot; split_ifs <;> exact h

lemma econInv_closeDepot (s : GMState) (h : EconInv s) :
    EconInv (closeDepot s) := by
  unfold closeDepot; split <;> exact h

lemma econInv_triggerDepotAction (s : GMState) (h : EconInv s) :
    EconInv (triggerDepotAction s) := by
  unfold triggerDepotAction
  split
  · exact econInv_closeDepot s h
  · split
    · exact h
    · exact econInv_openDepot _ s h

lemma econInv_loadProfile (w : World) (so : Option String) (p : RawProgress)
    (s : GMState) :
    EconInv (startNewShaft true w so (applyProgressSnapshot (sanitizeProgress p) s)) := by
  unfold startNewShaft applyProgressSnapshot sanitizeProgress
  dsimp only
  split
  · next hcond => simp at hcond
  · simp only [EconInv, getFuelCapacity, MAX_UPGRADE_LEVEL, clamp]
    omega

lemma econInv_applyOp (o : Op) (s : GMState) (h : EconInv s) :
    EconInv (applyOp o s) := by
  cases o with
  | step dx dy => exact econInv_attemptStep dx dy s h
  | sell => exact econInv_sellCargo s h
  | refuel r => exact econInv_refuelAtDepot r s h
  | purchase id => exact econInv_purchaseUpgrade id s h
  | tow => exact econInv_emergencyTow s h
  | openDepot d => exact econInv_openDepot d s h
  | closeDepot => exact econInv_closeDepot s h
  | toggleDepot => exact econInv_triggerDepotAction s h
  | togglePause => exact h
  | newShaft w => exact econInv_startNewShaft _ _ _ _ h
  | newProfile w => exact econInv_startNewShaft _ _ _ _ h
  | switchProfile w p => exact econInv_loadProfile _ _ p s

lemma econInv_of_reachable {s : GMState} (h : Reachable s) : EconInv s := by
  induction h with
  | init w p => exact econInv_loadProfile w none p _
  | next o hr ih => exact econInv_applyOp o _ ih

lemma totalEarned_handleSurfaceDock (s : GMState) :
    (handleSurfaceDock s).totalEarned = s.totalEarned := by
  unfold handleSurfaceDock; split <;> rfl

lemma totalEarned_setStrandedIfNeeded (s : GMState) :
    (setStrandedIfNeeded s).totalEarned = s.totalEarned := by
  unfold setStrandedIfNeeded; split <;> rfl

lemma totalEarned_spendFuel (a : ℤ) (s : GMState) :
    (spendFuel a s).totalEarned = s.totalEarned :=
  totalEarned_setStrandedIfNeeded _

lemma totalEarned_recordMined (t : Tile) (v : ℤ) (s : GMState) :
    (recordMined t v s).totalEarned = s.totalEarned := by
  unfold recordMined; split <;> rfl

lemma totalEarned_moveIntoEmpty (nx ny : ℤ) (s : GMState) :
    (moveIntoEmpty nx ny s).totalEarned = s.totalEarned := by
  unfold moveIntoEmpty
  dsimp only
  rw [totalEarned_handleSurfaceDock]
  split
  · rw [totalEarned_spendFuel]
  · rfl

lemma totalEarned_mineTile (t : Tile) (nx ny : ℤ) (s : GMState) :
    ((mineTile t nx ny s).1).totalEarned = s.totalEarned := by
  unfold mineTile
  dsimp only
  rw [totalEarned_handleSurfaceDock]
  show (spendFuel _ _).totalEarned = _
  rw [totalEarned_spendFuel, totalEarned_recordMined]

lemma totalEarned_aimUpdate (dx dy : ℤ) (s : GMState) :
    (aimUpdate dx dy s).totalEarned = s.totalEarned := by
  unfold aimUpdate; split_ifs <;> rfl

lemma totalEarned_facingUpdate (dx : ℤ) (s : GMState) :
    (facingUpdate dx s).totalEarned = s.totalEarned := by
  unfold facingUpdate; split_ifs <;> rfl

lemma totalEarned_attemptStep (dx dy : ℤ) (s : GMState) :
    ((attemptStep dx dy s).1).totalEarned = s.totalEarned := by
  have hbase : (facingUpdate dx (aimUpdate dx dy s)).totalEarned = s.totalEarned := by
    rw [totalEarned_facingUpdate, totalEarned_aimUpdate]
  unfold attemptStep
  dsimp only
  split
  · rfl
  · split
    · exact totalEarned_aimUpdate dx dy s
    · split
      · rw [show ((setStrandedIfNeeded _, (none : Option ℚ)).1) = setStrandedIfNeeded _ from rfl,
          totalEarned_setStrandedIfNeeded]
        exact hbase
      · split
        · rw [show ((moveIntoEmpty _ _ _, some _).1) = moveIntoEmpty _ _ _ from rfl,
            totalEarned_moveIntoEmpty]
          exact hbase
        · split
          · exact hbase
          · split
            · exact hbase
            · split
              · exact hbase
              · split
                · exact hbase
                · rw [totalEarned_mineTile]
                  exact hbase

lemma totalEarned_mono_sellCargo (s : GMState) :
    s.totalEarned ≤ (sellCargo s).totalEarned := by
  unfold sellCargo
  split
  · exact le_refl _
  · split
    · exact le_refl _
    · next hv => dsimp only; omega

lemma totalEarned_refuelAtDepot (r : Option ℚ) (s : GMState) :
    (refuelAtDepot r s).totalEarned = s.totalEarned := by
  unfold refuelAtDepot
  dsimp only
  split
  · rfl
  · split
    · rfl
    · split
      · rfl
      · rfl

lemma totalEarned_purchaseUpgrade (id : UpgradeId) (s : GMState) :
    (purchaseUpgrade id s).totalEarned = s.totalEarned := by
  unfold purchaseUpgrade
  dsimp only
  split
  · rfl
  · split
    · rfl
    · split
      · rfl
      · split
        · rfl
        · split
          · rfl
          · cases id <;> rfl

lemma totalEarned_emergencyTow (s : GMState) :
    (emergencyTow s).totalEarned = s.totalEarned := by
  unfold emergencyTow
  dsimp only
  split
  · rfl
  · rw [totalEarned_handleSurfaceDock]

lemma totalEarned_openDepot (d : DepotId) (s : GMState) :
    (openDepot d s).totalEarned = s.totalEarned := by
  unfold openDepot; split_ifs <;> rfl

lemma totalEarned_closeDepot (s : GMState) :
    (closeDepot s).totalEarned = s.totalEarned := by
  unfold closeDepot; split <;> rfl

lemma totalEarned_triggerDepotAction (s : GMState) :
    (triggerDepotAction s).totalEarned = s.totalEarned := by
  unfold triggerDepotAction
  split
  · exact totalEarned_closeDepot s
  · split
    · rfl
    · exact totalEarned_openDepot _ s

lemma totalEarned_newShaft (w : World) (so : Option String) (s : GMState) :
    (startNewShaft true w so s).totalEarned = s.totalEarned := by
  unfold startNewShaft
  dsimp only
  split
  · next hcond => simp at hcond
  · rfl

lemma totalEarned_mono_applyOp (o : Op) (ho : keepsProfile o = true) (s : GMState) :
    s.totalEarned ≤ (applyOp o s).totalEarned := by
  cases o with
  | step dx dy => exact le_of_eq (totalEarned_attemptStep dx dy s).symm
  | sell => exact totalEarned_mono_sellCargo s
  | refuel r => exact le_of_eq (totalEarned_refuelAtDepot r s).symm
  | purchase id => exact le_of_eq (totalEarned_purchaseUpgrade id s).symm
  | tow => exact le_of_eq (totalEarned_emergencyTow s).symm
  | openDepot d => exact le_of_eq (totalEarned_openDepot d s).symm
  | closeDepot => exact le_of_eq (totalEarned_closeDepot s).symm
  | toggleDepot => exact le_of_eq (totalEarned_triggerDepotAction s).symm
  | togglePause => exact le_refl _
  | newShaft w => exact le_of_eq (totalEarned_newShaft w none s).symm
  | newProfile w => simp [keepsProfile] at ho
  | switchProfile w p => simp [keepsProfile] at ho

lemma totalEarned_mono_execOps (ops : List Op) (s : GMState)
    (h : ∀ o ∈ ops, keepsProfile o = true) :
    s.totalEarned ≤ (execOps ops s).totalEarned := by
  induction ops generalizing s with
  | nil => exact le_refl _
  | cons o rest ih =>
    calc s.totalEarned
        ≤ (applyOp o s).totalEarned :=
          totalEarned_mono_applyOp o (h o (List.mem_cons_self o rest)) s
      _ ≤ (execOps rest (applyOp o s)).totalEarned :=
          ih _ fun o' ho' => h o' (List.mem_cons_of_mem o ho')

lemma reachable_execOps (ops : List Op) (s : GMState) (h : Reachable s) :
    Reachable (execOps ops s) := by
  induction ops generalizing s with
  | nil => exact h
  | cons o rest ih => exact ih _ (Reachable.next o h)

lemma aimUpdate_eq (dx dy : ℤ) (s : GMState) :
    aimUpdate dx dy s = { s with drillAim := aimOf dx dy s.drillAim } := by
  unfold aimUpdate aimOf; split_ifs <;> rfl

lemma facingUpdate_eq (dx : ℤ) (s : GMState) :
    facingUpdate dx s = { s with facing := facingOf dx s.facing } := by
  unfold facingUpdate facingOf; split_ifs <;> rfl

lemma sellable_of_mem {t : Tile} (ht : t ∈ cargoTypes) :
    isSellableCargoTile t = true := by
  fin_cases ht <;> rfl

/-- C4: invoking `emergencyTow()` while stranded floors every cargo manifest
entry's count and value at 60 percent, recomputes `cargoUsed`/`cargoValue` as
the sums over the manifest, returns the robot to `(x unchanged, y = 0)` with
fuel at full capacity, and clears the stranded flag; invoking it while not
stranded leaves the state unchanged. -/
theorem C4_emergency_tow (s : GMState) :
    (s.stranded = true →
      (∀ t ∈ cargoTypes,
        ((emergencyTow s).manifest t).count = ⌊((s.manifest t).count : ℚ) * (6/10)⌋ ∧
        ((emergencyTow s).manifest t).value = ⌊((s.manifest t).value : ℚ) * (6/10)⌋) ∧
      (emergencyTow s).cargoUsed = sumCounts (emergencyTow s).manifest ∧
      (emergencyTow s).cargoValue = sumValues (emergencyTow s).manifest ∧
      (emergencyTow s).robotX = s.robotX ∧
      (emergencyTow s).robotY = 0 ∧
      (emergencyTow s).fuel = getFuelCapacity (emergencyTow s).fuelLevel ∧
      (emergencyTow s).stranded = false) ∧
    (s.stranded = false → emergencyTow s = s) := by
  constructor
  · intro hstr
    unfold emergencyTow
    split
    · next hc => rw [hstr] at hc; simp at hc
    · dsimp only
      unfold handleSurfaceDock
      split
      · next hy => simp at hy
      · refine ⟨fun t ht => ?_, rfl, rfl, rfl, rfl, rfl, rfl⟩
        have hsell := sellable_of_mem ht
        exact ⟨by simp [hsell], by simp [hsell]⟩
  · intro hns
    unfold emergencyTow
    rw [hns]
    rfl

/-- C4 witness: a stranded session at depth 7 holding five coal worth 70;
after the tow the coal entry is `(3, 42)`, the robot is back on the surface
with a full tank, and the flag is cleared. -/
theorem C4_emergency_tow_witness :
    strandedState.stranded = true ∧
    ((emergencyTow strandedState).manifest Tile.coal).count =
      ⌊((strandedState.manifest Tile.coal).count : ℚ) * (6/10)⌋ ∧
    (emergencyTow strandedState).robotY = 0 ∧
    (emergencyTow strandedState).fuel =
      getFuelCapacity (emergencyTow strandedState).fuelLevel ∧
    (emergencyTow strandedState).stranded = false := by
  have h := (C4_emergency_tow strandedState).1 rfl
  exact ⟨rfl, (h.1 Tile.coal (by simp [cargoTypes])).1, h.2.2.2.2.1,
    h.2.2.2.2.2.1, h.2.2.2.2.2.2⟩

/-- C7: with the fuel depot panel open, `refuel` buys
`min(missing, affordable)` units (clamped into `[1, purchasable]` when a
finite count is requested), charging `units * unitCost`, adding `units` fuel
and clearing the stranded flag; when `missing ≤ 0` or `purchasable ≤ 0` the
money and fuel are unchanged. -/
theorem C7_refuel_transaction (s : GMState) (requestedUnits : Option ℚ)
    (hpanel : s.depotPanel = some DepotId.fuel) :
    ((getFuelCapacity s.fuelLevel - s.fuel ≤ 0 ∨
        min (getFuelCapacity s.fuelLevel - s.fuel)
          (Int.fdiv s.money FUEL_UNIT_COST) ≤ 0) →
      (refuelAtDepot requestedUnits s).money = s.money ∧
      (refuelAtDepot requestedUnits s).fuel = s.fuel) ∧
    (0 < min (getFuelCapacity s.fuelLevel - s.fuel)
        (Int.fdiv s.money FUEL_UNIT_COST) →
      (∀ r : ℚ, requestedUnits = some r →
        (refuelAtDepot requestedUnits s).money =
          s.money - clamp ⌊r⌋ 1 (min (getFuelCapacity s.fuelLevel - s.fuel)
            (Int.fdiv s.money FUEL_UNIT_COST)) * FUEL_UNIT_COST ∧
        (refuelAtDepot requestedUnits s).fuel =
          s.fuel + clamp ⌊r⌋ 1 (min (getFuelCapacity s.fuelLevel - s.fuel)
            (Int.fdiv s.money FUEL_UNIT_COST)) ∧
        (refuelAtDepot requestedUnits s).stranded = false) ∧
      (requestedUnits = none →
        (refuelAtDepot requestedUnits s).money =
          s.money - min (getFuelCapacity s.fuelLevel - s.fuel)
            (Int.fdiv s.money FUEL_UNIT_COST) * FUEL_UNIT_COST ∧
        (refuelAtDepot requestedUnits s).fuel =
          s.fuel + min (getFuelCapacity s.fuelLevel - s.fuel)
            (Int.fdiv s.money FUEL_UNIT_COST) ∧
        (refuelAtDepot requestedUnits s).stranded = false)) := by
  have hne : ¬(s.depotPanel ≠ some DepotId.fuel) := by simp [hpanel]
  unfold refuelAtDepot
  dsimp only
  rw [if_neg hne]
  constructor
  · intro hle
    split
    · exact ⟨rfl, rfl⟩
    · next h2 =>
      split
      · exact ⟨rfl, rfl⟩
      · next h3 => exfalso; omega
  · intro hpos
    split
    · next h2 => exfalso; omega
    · next h2 =>
      split
      · next h3 => exfalso; omega
      · next h3 =>
        constructor
        · intro r hr
          subst hr
          dsimp only
          unfold clamp FUEL_UNIT_COST at *
          refine ⟨?_, ?_, rfl⟩ <;> (show (_ : ℤ) = _; omega)
        · intro hr
          subst hr
          dsimp only
          unfold FUEL_UNIT_COST at *
          refine ⟨?_, ?_, rfl⟩ <;> (show (_ : ℤ) = _; omega)

/-- C7 witness: at the fuel depot with fuel 10/90 and money 41, the open-ended
request buys 20 units for 40, and a request of 5 buys 5 units for 10. -/
theorem C7_refuel_transaction_witness :
    fuelDepotState.depotPanel = some DepotId.fuel ∧
    0 < min (getFuelCapacity fuelDepotState.fuelLevel - fuelDepotState.fuel)
        (Int.fdiv fuelDepotState.money FUEL_UNIT_COST) ∧
    (refuelAtDepot none fuelDepotState).money = fuelDepotState.money -
      min (getFuelCapacity fuelDepotState.fuelLevel - fuelDepotState.fuel)
        (Int.fdiv fuelDepotState.money FUEL_UNIT_COST) * FUEL_UNIT_COST ∧
    (refuelAtDepot none fuelDepotState).fuel = fuelDepotState.fuel +
      min (getFuelCapacity fuelDepotState.fuelLevel - fuelDepotState.fuel)
        (Int.fdiv fuelDepotState.money FUEL_UNIT_COST) ∧
    (refuelAtDepot none fuelDepotState).stranded = false := by
  have h := ((C7_refuel_transaction fuelDepotState none rfl).2 (by decide)).2 rfl
  exact ⟨rfl, by decide, h.1, h.2.1, h.2.2⟩

/-- C8: every rejected `purchaseUpgrade(id)` call — stranded, wrong panel,
not at the surface, track at `MAX_UPGRADE_LEVEL`, or
`money < upgradeCost(id, level)` — leaves money, all four upgrade levels and
fuel unchanged. -/
theorem C8_upgrade_rejection (s : GMState) (id : UpgradeId)
    (hrej : s.stranded = true ∨ s.depotPanel ≠ some DepotId.upgrade ∨
        s.robotY ≠ 0 ∨ MAX_UPGRADE_LEVEL ≤ levelOf id s ∨
        s.money < getUpgradeCost id (levelOf id s)) :
    (purchaseUpgrade id s).money = s.money ∧
    (purchaseUpgrade id s).cargoLevel = s.cargoLevel ∧
    (purchaseUpgrade id s).drillLevel = s.drillLevel ∧
    (purchaseUpgrade id s).fuelLevel = s.fuelLevel ∧
    (purchaseUpgrade id s).treadsLevel = s.treadsLevel ∧
    (purchaseUpgrade id s).fuel = s.fuel := by
  unfold purchaseUpgrade
  dsimp only
  split
  · exact ⟨rfl, rfl, rfl, rfl, rfl, rfl⟩
  · next h1 =>
    split
    · exact ⟨rfl, rfl, rfl, rfl, rfl, rfl⟩
    · next h2 =>
      split
      · exact ⟨rfl, rfl, rfl, rfl, rfl, rfl⟩
      · next h3 =>
        split
        · exact ⟨rfl, rfl, rfl, rfl, rfl, rfl⟩
        · next h4 =>
          split
          · exact ⟨rfl, rfl, rfl, rfl, rfl, rfl⟩
          · next h5 => exfalso; tauto

/-- C8 witness: `purchaseUpgrade("drill")` at level 0 with
`money = upgradeCost("drill", 0) - 1 = 84` is rejected; the drill level is
still 0 and the money unchanged. -/
theorem C8_upgrade_rejection_witness :
    upgradeDepotState.money <
      getUpgradeCost UpgradeId.drill (levelOf UpgradeId.drill upgradeDepotState) ∧
    (purchaseUpgrade UpgradeId.drill upgradeDepotState).drillLevel = 0 ∧
    (purchaseUpgrade UpgradeId.drill upgradeDepotState).money =
      upgradeDepotState.money := by
  have hlt : upgradeDepotState.money <
      getUpgradeCost UpgradeId.drill (levelOf UpgradeId.drill upgradeDepotState) := by
    norm_num [upgradeDepotState, baseState, getUpgradeCost, jsRound, levelOf]
  have h := C8_upgrade_rejection upgradeDepotState UpgradeId.drill
    (Or.inr (Or.inr (Or.inr (Or.inr hlt))))
  exact ⟨hlt, by rw [h.2.2.1]; rfl, h.1⟩

/-- C1: in every reachable session state, the denormalized `cargoUsed`
equals the sum of the manifest counts over the twelve sellable ore types and
`cargoValue` equals the sum of the manifest values. -/
theorem C1_cargo_totals_invariant {s : GMState} (h : Reachable s) :
    s.cargoUsed = sumCounts s.manifest ∧ s.cargoValue = sumValues s.manifest :=
  cargoInv_of_reachable h

/-- C1 witness: the invariant instantiated at a freshly mounted session. -/
theorem C1_cargo_totals_invariant_witness :
    Reachable (initState coalWorld rawZero) ∧
    (initState coalWorld rawZero).cargoUsed =
      sumCounts (initState coalWorld rawZero).manifest ∧
    (initState coalWorld rawZero).cargoValue =
      sumValues (initState coalWorld rawZero).manifest :=
  ⟨Reachable.init coalWorld rawZero,
   C1_cargo_totals_invariant (Reachable.init coalWorld rawZero)⟩

/-- C5: in every reachable session state, fuel lies in
`[0, fuelCapacity(fuelLevel)]`, money is non-negative, and each upgrade
level lies in `[0, MAX_UPGRADE_LEVEL]`. -/
theorem C5_resource_bounds {s : GMState} (h : Reachable s) :
    0 ≤ s.fuel ∧ s.fuel ≤ getFuelCapacity s.fuelLevel ∧
    0 ≤ s.money ∧
    0 ≤ s.cargoLevel ∧ s.cargoLevel ≤ MAX_UPGRADE_LEVEL ∧
    0 ≤ s.drillLevel ∧ s.drillLevel ≤ MAX_UPGRADE_LEVEL ∧
    0 ≤ s.fuelLevel ∧ s.fuelLevel ≤ MAX_UPGRADE_LEVEL ∧
    0 ≤ s.treadsLevel ∧ s.treadsLevel ≤ MAX_UPGRADE_LEVEL :=
  econInv_of_reachable h

/-- C5 witness: the bounds instantiated at a freshly mounted session. -/
theorem C5_resource_bounds_witness :
    Reachable (initState dirtWorld rawZero) ∧
    0 ≤ (initState dirtWorld rawZero).fuel ∧
    (initState dirtWorld rawZero).fuel ≤
      getFuelCapacity (initState dirtWorld rawZero).fuelLevel ∧
    0 ≤ (initState dirtWorld rawZero).money :=
  ⟨Reachable.init dirtWorld rawZero,
   (C5_resource_bounds (Reachable.init dirtWorld rawZero)).1,
   (C5_resource_bounds (Reachable.init dirtWorld rawZero)).2.1,
   (C5_resource_bounds (Reachable.init dirtWorld rawZero)).2.2.1⟩

/-- C6 counterexample: a session mounted on a profile that already earned 14
(`Reachable` via `initState`) drops `totalEarned` to 0 when the profile is
reset (`startNewShaft(false, ...)`, a profile action), so `totalEarned` is
not non-decreasing across every sequence of operations. -/
theorem C6_totalEarned_counterexample :
    Reachable richStart ∧
    (applyOp (Op.newProfile coalWorld) richStart).totalEarned <
      richStart.totalEarned := by
  refine ⟨Reachable.init coalWorld richRaw, ?_⟩
  have h1 : richStart.totalEarned = 14 := by
    norm_num [richStart, initState, richRaw, baseState, startNewShaft,
      applyProgressSnapshot, sanitizeProgress, clamp]
  have h2 : (applyOp (Op.newProfile coalWorld) richStart).totalEarned = 0 := by
    norm_num [applyOp, startNewShaft]
  omega

/-- C6 (amended): `totalEarned` never decreases across any sequence of
operations that keeps the current profile — i.e. excluding the explicit
profile reset (`new profile`) and profile switch, both of which replace
`totalEarned` with 0 or with the loaded profile's value. -/
theorem C6_totalEarned_monotone (s : GMState) (ops : List Op)
    (h : ∀ o ∈ ops, keepsProfile o = true) :
    s.totalEarned ≤ (execOps ops s).totalEarned :=
  totalEarned_mono_execOps ops s h

/-- C6 witness: the monotone statement instantiated on the
mine-coast-and-sell run. -/
theorem C6_totalEarned_monotone_witness :
    (∀ o ∈ earnOps, keepsProfile o = true) ∧
    (initState coalWorld rawZero).totalEarned ≤
      (execOps earnOps (initState coalWorld rawZero)).totalEarned :=
  ⟨by decide, C6_totalEarned_monotone (initState coalWorld rawZero) earnOps
    (by decide)⟩

/-- C3: a step request onto a drill-tier-gated tile (stone, aegis or
voidbed) while the drill tier is below that tile's required tier leaves the
world grid, the fuel amount and the robot position unchanged: the tile is
not mined, no fuel is spent, and the robot does not move. -/
theorem C3_tier_gate_frame (s : GMState) (dx dy : ℤ) (h : Reachable s)
    (hgate :
      (s.world (s.robotY + dy) (s.robotX + dx) = Tile.stone ∧
        getDrillTier s.drillLevel < STONE_REQUIRED_DRILL_TIER) ∨
      (s.world (s.robotY + dy) (s.robotX + dx) = Tile.aegis ∧
        getDrillTier s.drillLevel < AEGIS_REQUIRED_DRILL_TIER) ∨
      (s.world (s.robotY + dy) (s.robotX + dx) = Tile.voidbed ∧
        getDrillTier s.drillLevel < VOIDBED_REQUIRED_DRILL_TIER)) :
    ((attemptStep dx dy s).1).world = s.world ∧
    ((attemptStep dx dy s).1).fuel = s.fuel ∧
    ((attemptStep dx dy s).1).robotX = s.robotX ∧
    ((attemptStep dx dy s).1).robotY = s.robotY := by
  have hfuel0 : 0 ≤ s.fuel := (econInv_of_reachable h).1
  unfold attemptStep
  simp only [aimUpdate_eq, facingUpdate_eq]
  split
  · exact ⟨rfl, rfl, rfl, rfl⟩
  · split
    · exact ⟨rfl, rfl, rfl, rfl⟩
    · split
      · next hf =>
        unfold setStrandedIfNeeded
        split
        · next hc => exact ⟨rfl, by dsimp only; omega, rfl, rfl⟩
        · exact ⟨rfl, rfl, rfl, rfl⟩
      · split
        · next hempty =>
          exfalso
          rcases hgate with ⟨ht, _⟩ | ⟨ht, _⟩ | ⟨ht, _⟩ <;>
            (rw [ht] at hempty; exact absurd hempty (by simp))
        · split
          · next hfull =>
            exfalso
            rcases hgate with ⟨ht, _⟩ | ⟨ht, _⟩ | ⟨ht, _⟩ <;>
              (rw [ht] at hfull;
               exact absurd hfull.1 (by simp [isSellableCargoTile, cargoTypes]))
          · split
            · exact ⟨rfl, rfl, rfl, rfl⟩
            · split
              · exact ⟨rfl, rfl, rfl, rfl⟩
              · split
                · exact ⟨rfl, rfl, rfl, rfl⟩
                · next h6 h7 h8 =>
                  exfalso
                  rcases hgate with hg | hg | hg
                  · exact h6 hg
                  · exact h7 hg
                  · exact h8 hg

lemma mineFuelCost_dirt : mineFuelCost Tile.dirt 0 = 1 := by
  norm_num [mineFuelCost, jsRound, tileHardness, getDrillTier,
    show weakRockTierGap Tile.dirt 1 = 0 from rfl]

lemma mineFuelCost_coal : mineFuelCost Tile.coal 0 = 2 := by
  norm_num [mineFuelCost, jsRound, tileHardness, getDrillTier,
    show weakRockTierGap Tile.coal 1 = 0 from rfl]

lemma minedValueAt_dirt (y : ℤ) : minedValueAt Tile.dirt y = 0 := by
  norm_num [minedValueAt, jsRound, tileValue]

lemma minedValueAt_coal3 : minedValueAt Tile.coal 3 = 14 := by
  norm_num [minedValueAt, jsRound, tileValue]

lemma init_eval (w : World) : initState w rawZero = freshState w := by
  norm_num [initState, baseState, startNewShaft, applyProgressSnapshot,
    sanitizeProgress, clamp, rawZero, getFuelCapacity, MAX_UPGRADE_LEVEL,
    freshState]

lemma c2_step1 : attemptStep 0 1 (freshState dirtWorld) =
    (dugIntoDirt, some ((mineDelay Tile.dirt 0 : ℤ) : ℚ)) := by
  norm_num [attemptStep, aimUpdate, facingUpdate, mineTile, recordMined,
    spendFuel, setStrandedIfNeeded, handleSurfaceDock, freshState, dugIntoDirt,
    dirtWorld, updateWorld, mineFuelCost_dirt, minedValueAt_dirt,
    WORLD_WIDTH, WORLD_HEIGHT, getCargoCapacity, getDrillTier, getMoveDelayMs,
    STONE_REQUIRED_DRILL_TIER, AEGIS_REQUIRED_DRILL_TIER,
    VOIDBED_REQUIRED_DRILL_TIER,
    eq_false (by decide : ¬(Tile.dirt = Tile.empty)),
    eq_false (by decide : ¬(Tile.dirt = Tile.stone)),
    eq_false (by decide : ¬(Tile.dirt = Tile.aegis)),
    eq_false (by decide : ¬(Tile.dirt = Tile.voidbed)),
    show isSellableCargoTile Tile.dirt = false from rfl,
    show weakRockTierGap Tile.dirt 1 = 0 from rfl]

lemma c2_step2 : attemptStep 0 (-1) dugIntoDirt =
    (backOnSurface, some ((getMoveDelayMs 0 : ℤ) : ℚ)) := by
  norm_num [attemptStep, aimUpdate, facingUpdate, moveIntoEmpty, spendFuel,
    setStrandedIfNeeded, handleSurfaceDock, dugIntoDirt, backOnSurface,
    dirtWorld, updateWorld, WORLD_WIDTH, WORLD_HEIGHT]

lemma c9_step1 : attemptStep 0 1 (freshState descentWorld) =
    (descent1, some ((mineDelay Tile.dirt 0 : ℤ) : ℚ)) := by
  norm_num [attemptStep, aimUpdate, facingUpdate, mineTile, recordMined,
    spendFuel, setStrandedIfNeeded, handleSurfaceDock, freshState, descent1,
    descentWorld, updateWorld, mineFuelCost_dirt, minedValueAt_dirt,
    WORLD_WIDTH, WORLD_HEIGHT, getCargoCapacity, getDrillTier, getMoveDelayMs,
    STONE_REQUIRED_DRILL_TIER, AEGIS_REQUIRED_DRILL_TIER,
    VOIDBED_REQUIRED_DRILL_TIER,
    eq_false (by decide : ¬(Tile.dirt = Tile.empty)),
    eq_false (by decide : ¬(Tile.dirt = Tile.stone)),
    eq_false (by decide : ¬(Tile.dirt = Tile.aegis)),
    eq_false (by decide : ¬(Tile.dirt = Tile.voidbed)),
    show isSellableCargoTile Tile.dirt = false from rfl,
    show weakRockTierGap Tile.dirt 1 = 0 from rfl]

lemma c9_step2 : attemptStep 0 1 descent1 =
    (descent2, some ((mineDelay Tile.dirt 0 : ℤ) : ℚ)) := by
  norm_num [attemptStep, aimUpdate, facingUpdate, mineTile, recordMined,
    spendFuel, setStrandedIfNeeded, handleSurfaceDock, freshState, descent1,
    descent2, descentWorld, updateWorld, mineFuelCost_dirt, minedValueAt_dirt,
    WORLD_WIDTH, WORLD_HEIGHT, getCargoCapacity, getDrillTier, getMoveDelayMs,
    STONE_REQUIRED_DRILL_TIER, AEGIS_REQUIRED_DRILL_TIER,
    VOIDBED_REQUIRED_DRILL_TIER,
    eq_false (by decide : ¬(Tile.dirt = Tile.empty)),
    eq_false (by decide : ¬(Tile.dirt = Tile.stone)),
    eq_false (by decide : ¬(Tile.dirt = Tile.aegis)),
    eq_false (by decide : ¬(Tile.dirt = Tile.voidbed)),
    show isSellableCargoTile Tile.dirt = false from rfl,
    show weakRockTierGap Tile.dirt 1 = 0 from rfl]

lemma c9_step3 : attemptStep 0 1 descent2 =
    (descent3, some ((mineDelay Tile.coal 0 : ℤ) : ℚ)) := by
  norm_num [attemptStep, aimUpdate, facingUpdate, mineTile, recordMined,
    spendFuel, setStrandedIfNeeded, handleSurfaceDock, freshState, descent1,
    descent2, descent3, descentWorld, updateWorld, mineFuelCost_coal,
    minedValueAt_coal3, createEmptyCargoManifest,
    WORLD_WIDTH, WORLD_HEIGHT, getCargoCapacity, getDrillTier, getMoveDelayMs,
    STONE_REQUIRED_DRILL_TIER, AEGIS_REQUIRED_DRILL_TIER,
    VOIDBED_REQUIRED_DRILL_TIER,
    eq_false (by decide : ¬(Tile.coal = Tile.empty)),
    eq_false (by decide : ¬(Tile.coal = Tile.stone)),
    eq_false (by decide : ¬(Tile.coal = Tile.aegis)),
    eq_false (by decide : ¬(Tile.coal = Tile.voidbed)),
    show isSellableCargoTile Tile.coal = true from rfl,
    show weakRockTierGap Tile.coal 1 = 0 from rfl]

/-- C2 (code-bug evaluation): on a fresh shaft with one dirt tile below the
spawn point, mining down costs one fuel (fuel 90 to 89); the following
accepted step back up into the in-bounds empty surface cell moves the robot
to `y = 0` but charges no fuel (fuel stays 89), because the free-surface-move
test `!(robotYRef.current === 0 && nextY === 0)` reads `robotYRef.current`
after it was already set to `nextY`.  The claim (and the intended rule,
matching the spec) would charge 1 fuel for this non-lateral move, leaving 88. -/
theorem C2_upward_step_charges_no_fuel :
    (attemptStep 0 1 (initState dirtWorld rawZero)).1 = dugIntoDirt ∧
    dugIntoDirt.robotY = 1 ∧ dugIntoDirt.fuel = 89 ∧
    (attemptStep 0 (-1) dugIntoDirt).1 = backOnSurface ∧
    backOnSurface.robotY = 0 ∧ backOnSurface.fuel = 89 := by
  refine ⟨?_, rfl, rfl, ?_, rfl, rfl⟩
  · rw [init_eval, c2_step1]
  · rw [c2_step2]

/-- C9: starting from a fresh shaft with the robot at `(11, 0)`, fuel 90 and
money 0, three downward steps through forced tiles dirt, dirt, coal end with
`cargoUsed = 1`, coal manifest entry `(1, 14)` where
`14 = round(14 * (1 + 3/95))`, and fuel `86`: the dirt tiles cost
`max(1, round(1 * 1.15)) = 1` fuel each and the coal tile costs
`max(1, round(1.6 * 1.15)) = 2`. -/
theorem C9_forced_descent_scenario :
    (attemptStep 0 1 ((attemptStep 0 1
        ((attemptStep 0 1 (initState descentWorld rawZero)).1)).1)).1 =
      descent3 ∧
    descent3.cargoUsed = 1 ∧
    (descent3.manifest Tile.coal).count = 1 ∧
    (descent3.manifest Tile.coal).value = 14 ∧
    descent3.fuel = 86 ∧
    minedValueAt Tile.coal 3 = jsRound (14 * (1 + 3 / 95)) ∧
    jsRound (14 * (1 + 3 / 95)) = 14 ∧
    mineFuelCost Tile.dirt 0 = 1 ∧
    mineFuelCost Tile.coal 0 = 2 := by
  refine ⟨?_, rfl, ?_, ?_, rfl, ?_, ?_, mineFuelCost_dirt, mineFuelCost_coal⟩
  · simp only [init_eval, c9_step1, c9_step2, c9_step3]
  · simp [descent3, descent2, descent1]
  · simp [descent3, descent2, descent1]
  · norm_num [minedValueAt, tileValue]
  · norm_num [jsRound]

/-- C3 witness: a fresh session (drill tier 1) stepping down onto a stone
tile is rejected with fuel and position unchanged. -/
theorem C3_tier_gate_frame_witness :
    Reachable (initState stoneWorld rawZero) ∧
    ((initState stoneWorld rawZero).world
        ((initState stoneWorld rawZero).robotY + 1)
        ((initState stoneWorld rawZero).robotX + 0) = Tile.stone ∧
      getDrillTier (initState stoneWorld rawZero).drillLevel <
        STONE_REQUIRED_DRILL_TIER) ∧
    ((attemptStep 0 1 (initState stoneWorld rawZero)).1).fuel =
      (initState stoneWorld rawZero).fuel ∧
    ((attemptStep 0 1 (initState stoneWorld rawZero)).1).robotY =
      (initState stoneWorld rawZero).robotY := by
  have hg : (initState stoneWorld rawZero).world
      ((initState stoneWorld rawZero).robotY + 1)
      ((initState stoneWorld rawZero).robotX + 0) = Tile.stone ∧
      getDrillTier (initState stoneWorld rawZero).drillLevel <
        STONE_REQUIRED_DRILL_TIER := by
    rw [init_eval]
    constructor
    · norm_num [freshState, stoneWorld]
    · norm_num [freshState, getDrillTier, STONE_REQUIRED_DRILL_TIER]
  have h := C3_tier_gate_frame (initState stoneWorld rawZero) 0 1
    (Reachable.init stoneWorld rawZero) (Or.inl hg)
  exact ⟨Reachable.init stoneWorld rawZero, hg, h.2.1, h.2.2.2⟩

/-- C10: the paused flag gates only step requests: a paused session rejects
every `attemptStep` with no state change, while `sellCargo`,
`refuelAtDepot` and `purchaseUpgrade` perform exactly the same transition
as with `paused = false` — in particular a sale with the sell panel open
and positive cargo value still credits the money and clears the
manifest. -/
theorem C10_pause_gates_only_steps (s : GMState) (hp : s.paused = true) :
    (∀ dx dy, attemptStep dx dy s = (s, none)) ∧
    (sellCargo s = { sellCargo { s with paused := false } with paused := true }) ∧
    (s.depotPanel = some DepotId.sell → 0 < s.cargoValue →
      (sellCargo s).money = s.money + s.cargoValue ∧
      (sellCargo s).totalEarned = s.totalEarned + s.cargoValue ∧
      (sellCargo s).manifest = createEmptyCargoManifest ∧
      (sellCargo s).cargoValue = 0 ∧ (sellCargo s).cargoUsed = 0) ∧
    (∀ r, refuelAtDepot r s =
        { refuelAtDepot r { s with paused := false } with paused := true }) ∧
    (∀ id, purchaseUpgrade id s =
        { purchaseUpgrade id { s with paused := false } with paused := true }) := by
  obtain ⟨w, rx, ry, aim, fc, mo, cv, cu, mf, fu, te, cl, dl, fl, tl, st, sd, pz, dp⟩ := s
  dsimp only at hp
  subst hp
  refine ⟨?_, ?_, ?_, ?_, ?_⟩
  · intro dx dy
    unfold attemptStep
    rw [if_pos (Or.inl rfl)]
  · unfold sellCargo
    dsimp only
    split_ifs <;> rfl
  · intro hpanel hv
    dsimp only at hpanel hv
    unfold sellCargo
    rw [if_neg (by simp [hpanel]), if_neg (by dsimp only; omega)]
    exact ⟨rfl, rfl, rfl, rfl, rfl⟩
  · intro r
    unfold refuelAtDepot
    dsimp only
    split_ifs <;> rfl
  · intro id
    cases id <;> (unfold purchaseUpgrade levelOf; dsimp only; split_ifs <;> rfl)

/-- C10 witness: a paused session at the sell depot holding one coal worth
14 still sells. -/
theorem C10_pause_gates_only_steps_witness :
    pausedSellState.paused = true ∧
    pausedSellState.depotPanel = some DepotId.sell ∧
    0 < pausedSellState.cargoValue ∧
    (sellCargo pausedSellState).money =
      pausedSellState.money + pausedSellState.cargoValue ∧
    (sellCargo pausedSellState).cargoUsed = 0 := by
  have h := ((C10_pause_gates_only_steps pausedSellState rfl).2.2.1) rfl
    (by norm_num [pausedSellState, baseState])
  exact ⟨rfl, rfl, by norm_num [pausedSellState, baseState], h.1, h.2.2.2.2⟩

end GemMiner
